import Mathlib

/-!
Shallow embedding of the NullNova certificate-generation workflow.

Two page variants exist in the source:

* `src/src/components/verifypage.js` — the local-mode verify page: the
  wipe log is parsed as JSON in the browser and rendered inline as a
  certificate envelope.  Host builtins (`JSON.parse`,
  `JSON.stringify(·, null, 2)`, `new Date().toLocaleString()`) are not
  code of this repository, so they are modelled as oracle parameters
  (`parse`, `stringify`, `now`).
* `src/unnamed/part_002` — the remote-mode verify page: the selected
  file is read and its raw content POSTed to a fixed endpoint; the
  response handling extracts `download_url`.

State is React `useState` state; each event handler is embedded as a
pure function from state (plus the outcome of any asynchronous
collaborator) to state together with its observable effects (alerts
raised, network requests issued, errors logged).
-/

/-- JSON values, the result of the host's `JSON.parse`. -/
inductive Json where
  | null
  | bool (b : Bool)
  | num (n : Int)
  | str (s : String)
  | arr (elems : List Json)
  | obj (fields : List (String × Json))

/-- JavaScript property access `data.key` on a parsed JSON value: a
defined property only when the value is an object that has the key
(`undefined` otherwise, modelled as `none`). -/
def Json.getField : Json → String → Option Json
  | .obj fields, key => fields.lookup key
  | _, _ => none

/-- JavaScript truthiness of a JSON value, as used by
`if (data.download_url)` and by conditional rendering `{x && ...}`. -/
def Json.truthy : Json → Bool
  | .null => false
  | .bool b => b
  | .num n => n != 0
  | .str s => s != ""
  | .arr _ => true
  | .obj _ => true

/-- A browser `File`: its declared MIME type (`file.type`) and the text
content a `FileReader.readAsText` delivers. -/
structure JsFile where
  type : String
  content : String

/-! ## Local mode (`src/src/components/verifypage.js`) -/

/-- The certificate envelope built by `generateCertificate`:
`{ title, timestamp, details }`. -/
structure Cert where
  title : String
  timestamp : String
  details : Json

/-- The local page's `useState` state: `jsonInput`, `certificate`,
`inputMode`, `isDragging`. -/
structure LocalState where
  jsonInput : String
  certificate : Option Cert
  inputMode : String
  isDragging : Bool

/-- Observable effects of one local-mode event: the `alert` calls made
and the number of network requests issued (the local page contains no
`fetch` at all, so every handler reports `0`). -/
structure LocalEffects where
  alerts : List String
  requests : Nat

/-- The fixed title string of the local certificate envelope. -/
def certificateTitle : String := "NullNova Data Wiping Certificate"

/-- `generateCertificate` (verifypage.js lines 57-69): try
`JSON.parse(jsonInput)`; on success store a fresh envelope
`{ title, timestamp: now, details: parsed }`; on parse failure call
`alert("Invalid JSON. Please check your input.")` and change nothing.
`parse` is the host `JSON.parse` (returning `none` on a syntax error),
`now` the host `new Date().toLocaleString()`. -/
def generateCertificate (parse : String → Option Json) (now : String)
    (s : LocalState) : LocalState × LocalEffects :=
  match parse s.jsonInput with
  | some parsed =>
      ({ s with certificate := some ⟨certificateTitle, now, parsed⟩ }, ⟨[], 0⟩)
  | none => (s, ⟨["Invalid JSON. Please check your input."], 0⟩)

/-- `handleFileUpload` (verifypage.js lines 26-36): accept the file only
when `file && file.type === "application/json"`; then the reader's
`onload` replaces `jsonInput` with the file content; otherwise
`alert("Please upload a valid JSON file.")` and leave state unchanged. -/
def handleFileUpload (file : Option JsFile) (s : LocalState) :
    LocalState × LocalEffects :=
  match file with
  | some f =>
      if f.type = "application/json" then
        ({ s with jsonInput := f.content }, ⟨[], 0⟩)
      else
        (s, ⟨["Please upload a valid JSON file."], 0⟩)
  | none => (s, ⟨["Please upload a valid JSON file."], 0⟩)

/-- `handleDrop` (verifypage.js lines 48-55): clear `isDragging`; if at
least one file was dropped, pass the first to `handleFileUpload`. -/
def handleDrop (files : List JsFile) (s : LocalState) :
    LocalState × LocalEffects :=
  match files with
  | [] => ({ s with isDragging := false }, ⟨[], 0⟩)
  | f :: _ => handleFileUpload (some f) { s with isDragging := false }

/-- The hidden file input's `onChange` (verifypage.js lines 560-564):
call `handleFileUpload` only when a file was actually selected. -/
def handleFileInputChange (files : List JsFile) (s : LocalState) :
    LocalState × LocalEffects :=
  match files with
  | [] => (s, ⟨[], 0⟩)
  | f :: _ => handleFileUpload (some f) s

/-- What the certificate section renders (verifypage.js lines 585-595):
nothing when `certificate` is null, else the envelope's title, its
timestamp, and `JSON.stringify(certificate.details, null, 2)` — the
host's 2-space-indented pretty printer, passed as the oracle
`stringify`. -/
structure RenderedCert where
  title : String
  timestamp : String
  detailsDump : String

/-- Rendering of the local certificate section. -/
def renderCertificateSection (stringify : Json → String) (s : LocalState) :
    Option RenderedCert :=
  s.certificate.map fun c => ⟨c.title, c.timestamp, stringify c.details⟩

/-! ## Remote mode (`src/unnamed/part_002`) -/

/-- The remote page's `useState` state: `selectedFile`, `status`,
`downloadUrl`.  `downloadUrl` is stored as the raw JSON value that
`setDownloadUrl(data.download_url)` received (initially the empty
string). -/
structure RemoteState where
  selectedFile : Option JsFile
  status : String
  downloadUrl : Json

/-- Status-message strings of part_002. -/
def generatingMsg : String := "Generating certificate, please wait..."

/-- Success status message. -/
def successMsg : String := "Certificate generated successfully!"

/-- Catch-all error status message. -/
def errorMsg : String := "An error occurred. Please try again."

/-- Status message shown when submitting with no file selected. -/
def noFileMsg : String := "Please select a JSON file to upload."

/-- The spec's abstract `WorkflowStatus`, recovered from the concrete
status string part_002 stores. -/
inductive WStatus where
  | idle
  | submitting
  | succeeded
  | failed
deriving DecidableEq

/-- Map the remote page's concrete `status` string to the spec's
workflow status. -/
def workflowStatus (s : RemoteState) : WStatus :=
  if s.status = generatingMsg then .submitting
  else if s.status = successMsg then .succeeded
  else if s.status = errorMsg then .failed
  else .idle

/-- The settlement of the single `fetch`: either an HTTP response (its
status code, and the host JSON parse of its body — `none` when
`response.json()` rejects) or a network-level failure. -/
inductive FetchOutcome where
  | response (status : Nat) (body : Option Json)
  | networkFailure (msg : String)

/-- The errors part_002 throws and logs via `console.error`:
`new Error("Server error: " + status)`, `new Error("Invalid response
from server.")`, the body-parse rejection, or the network failure. -/
inductive ApiError where
  | serverError (status : Nat)
  | invalidServerResponse
  | bodyParseError
  | networkError (msg : String)
deriving DecidableEq

/-- `response.ok`: HTTP status in the 2xx range. -/
def respOk (status : Nat) : Bool := 200 ≤ status && status ≤ 299

/-- The first two statements of `sendToApi` (part_002 lines 34-35):
`setStatus("Generating certificate, please wait...")` and
`setDownloadUrl("")` — run when the request is issued. -/
def sendToApiStart (s : RemoteState) : RemoteState :=
  { s with status := generatingMsg, downloadUrl := Json.str "" }

/-- The promise chain of `sendToApi` (part_002 lines 44-59): non-ok
status throws a server error; a 200-range response has its body parsed;
a truthy `data.download_url` yields success and stores the link; an
absent or falsy field throws an invalid-response error; every thrown
error lands in `.catch`, which logs it and sets the catch-all status. -/
def handleFetchOutcome (outcome : FetchOutcome) (s : RemoteState) :
    RemoteState × Option ApiError :=
  match outcome with
  | .networkFailure msg => ({ s with status := errorMsg }, some (.networkError msg))
  | .response st body =>
      if respOk st then
        match body with
        | none => ({ s with status := errorMsg }, some .bodyParseError)
        | some data =>
            match data.getField "download_url" with
            | some v =>
                if v.truthy then
                  ({ s with status := successMsg, downloadUrl := v }, none)
                else
                  ({ s with status := errorMsg }, some .invalidServerResponse)
            | none => ({ s with status := errorMsg }, some .invalidServerResponse)
      else
        ({ s with status := errorMsg }, some (.serverError st))

/-- The whole of `sendToApi` for one settled request: clear status and
download link, issue exactly one `fetch` (the returned count), and
handle its outcome. -/
def sendToApi (outcome : FetchOutcome) (s : RemoteState) :
    RemoteState × Option ApiError × Nat :=
  let r := handleFetchOutcome outcome (sendToApiStart s)
  (r.1, r.2, 1)

/-- The synchronous part of `handleSubmit` (part_002 lines 20-31), i.e.
what one click does before any asynchronous completion: with no file
selected, set the no-file status and stop; otherwise start a
`FileReader` read of the selected file (the returned flag) — nothing
else changes until the read completes. -/
def handleSubmitClick (s : RemoteState) : RemoteState × Bool :=
  match s.selectedFile with
  | none => ({ s with status := noFileMsg }, false)
  | some _ => (s, true)

/-- One full generation attempt in remote mode: the click, the (always
successful, single-shot) file read, and the settled request.  Returns
the final state, the logged error, and the number of `fetch` calls the
attempt issued. -/
def submitAttempt (outcome : FetchOutcome) (s : RemoteState) :
    RemoteState × Option ApiError × Nat :=
  match s.selectedFile with
  | none => ({ s with status := noFileMsg }, none, 0)
  | some _ => sendToApi outcome s

/-- `handleFileChange` (part_002 lines 14-18): store the selection and
clear both status and download link. -/
def handleFileChange (file : Option JsFile) (s : RemoteState) : RemoteState :=
  { s with selectedFile := file, status := "", downloadUrl := Json.str "" }

/-- What the remote page renders (part_002 lines 98-116): the status
message when the status string is truthy, the download link when
`downloadUrl` is truthy, and a generate button that carries no
`disabled` attribute. -/
structure RemoteView where
  statusMessage : Option String
  downloadLink : Option Json
  generateDisabled : Bool

/-- Rendering of the remote page. -/
def renderRemote (s : RemoteState) : RemoteView :=
  { statusMessage := if s.status = "" then none else some s.status
    downloadLink := if s.downloadUrl.truthy then some s.downloadUrl else none
    generateDisabled := false }

/-! ## Theorems -/

/-- C1 counterexample: the claim quantifies over both modes, but the
remote page (part_002) performs no client-side JSON validation at all:
`handleSubmit` reads the selected file and `sendToApi` POSTs its raw
content unconditionally.  With the text "not json" — invalid under any
parse oracle that rejects it — a generation attempt still issues one
network request, where the claim demands zero. -/
theorem C1_counterexample :
    (fun _ : String => (none : Option Json)) "not json" = none ∧
    (submitAttempt (.response 200 none)
      ⟨some ⟨"application/json", "not json"⟩, "", Json.str ""⟩).2.2 = 1 := by
  exact ⟨rfl, rfl⟩

/-- C1 (amended to local mode): in the local page, when `JSON.parse`
fails on the input, `generateCertificate` issues no network request,
leaves the whole component state unchanged (so the workflow stays
where it was, with no status set), and raises the invalid-JSON alert
exactly once. -/
theorem C1_local_invalid_input (parse : String → Option Json) (now : String)
    (s : LocalState) (h : parse s.jsonInput = none) :
    generateCertificate parse now s =
      (s, ⟨["Invalid JSON. Please check your input."], 0⟩) := by
  simp [generateCertificate, h]

/-- Witness for C1: a concrete state whose input every-rejecting parse
oracle maps to `none`. -/
theorem C1_local_invalid_input_witness :
    (fun _ : String => (none : Option Json)) "oops" = none ∧
    generateCertificate (fun _ => none) "1/1/2024, 10:00:00 AM"
        ⟨"oops", none, "text", false⟩ =
      (⟨"oops", none, "text", false⟩,
        ⟨["Invalid JSON. Please check your input."], 0⟩) :=
  ⟨rfl, C1_local_invalid_input (fun _ => none) "1/1/2024, 10:00:00 AM"
    ⟨"oops", none, "text", false⟩ rfl⟩

/-- C2 counterexample: in the remote page the generate button carries no
`disabled` attribute, and `handleSubmit` has no state guard; a click in
the submitting state (status = "Generating certificate, please wait...")
with a file selected issues one more request, where the claim demands
zero and a disabled control. -/
theorem C2_counterexample :
    workflowStatus ⟨some ⟨"application/json", "log"⟩, generatingMsg,
        Json.str ""⟩ = .submitting ∧
    (submitAttempt (.response 200 none)
      ⟨some ⟨"application/json", "log"⟩, generatingMsg, Json.str ""⟩).2.2 = 1 ∧
    (renderRemote ⟨some ⟨"application/json", "log"⟩, generatingMsg,
        Json.str ""⟩).generateDisabled = false := by
  refine ⟨?_, rfl, rfl⟩
  simp [workflowStatus]

/-- C2 (amended): in remote mode, each click of the generate control
with a file selected issues exactly one HTTP POST regardless of the
workflow state — including while submitting, since the submit control
is never disabled; a click with no file selected issues zero
requests. -/
theorem C2_requests_per_click (s : RemoteState) (o : FetchOutcome) :
    (s.selectedFile ≠ none → (submitAttempt o s).2.2 = 1) ∧
    (s.selectedFile = none → (submitAttempt o s).2.2 = 0) ∧
    (renderRemote s).generateDisabled = false := by
  refine ⟨fun h => ?_, fun h => ?_, rfl⟩ <;>
    cases hf : s.selectedFile <;>
    simp_all [submitAttempt, sendToApi]

/-- Witness for C2 at a concrete submitting state with a selected
file. -/
theorem C2_requests_per_click_witness :
    (submitAttempt (.response 200 none)
      ⟨some ⟨"application/json", "log"⟩, generatingMsg, Json.str ""⟩).2.2 = 1 ∧
    (renderRemote ⟨some ⟨"application/json", "log"⟩, generatingMsg,
        Json.str ""⟩).generateDisabled = false :=
  ⟨(C2_requests_per_click ⟨some ⟨"application/json", "log"⟩, generatingMsg,
      Json.str ""⟩ (.response 200 none)).1 (Option.some_ne_none _),
   (C2_requests_per_click ⟨some ⟨"application/json", "log"⟩, generatingMsg,
      Json.str ""⟩ (.response 200 none)).2.2⟩

/-- C3: in local mode, on any input the parse oracle accepts,
generation stores the envelope with the fixed title, the generation
time delivered by the locale formatter, and the parsed input as
details; the rendered section shows the title, the timestamp, and the
indented stringify dump of the details; no alert and no request. -/
theorem C3_local_certificate (parse : String → Option Json)
    (stringify : Json → String) (now : String) (s : LocalState) (p : Json)
    (h : parse s.jsonInput = some p) :
    (generateCertificate parse now s).1.certificate =
      some ⟨"NullNova Data Wiping Certificate", now, p⟩ ∧
    renderCertificateSection stringify (generateCertificate parse now s).1 =
      some ⟨"NullNova Data Wiping Certificate", now, stringify p⟩ ∧
    (generateCertificate parse now s).2 = ⟨[], 0⟩ := by
  simp [generateCertificate, h, renderCertificateSection, certificateTitle]

/-- Witness for C3 on a concrete accepted input. -/
theorem C3_local_certificate_witness :
    (fun _ : String => some (Json.obj [("device", Json.str "SSD")]))
        "anything" = some (Json.obj [("device", Json.str "SSD")]) ∧
    (generateCertificate (fun _ => some (Json.obj [("device", Json.str "SSD")]))
        "1/1/2024, 10:00:00 AM" ⟨"anything", none, "text", false⟩).1.certificate =
      some ⟨"NullNova Data Wiping Certificate", "1/1/2024, 10:00:00 AM",
        Json.obj [("device", Json.str "SSD")]⟩ :=
  ⟨rfl, (C3_local_certificate (fun _ => some (Json.obj [("device", Json.str "SSD")]))
    (fun _ => "dump") "1/1/2024, 10:00:00 AM" ⟨"anything", none, "text", false⟩
    (Json.obj [("device", Json.str "SSD")]) rfl).1⟩

/-- C4: in local mode, two successive generation clicks with the input
unchanged (generation itself does not touch the input) yield envelopes
equal in title and details — every field except the timestamp. -/
theorem C4_repeat_clicks (parse : String → Option Json) (now₁ now₂ : String)
    (s : LocalState) (p : Json) (h : parse s.jsonInput = some p) :
    ∃ c₁ c₂ : Cert,
      (generateCertificate parse now₁ s).1.certificate = some c₁ ∧
      (generateCertificate parse now₂
        (generateCertificate parse now₁ s).1).1.certificate = some c₂ ∧
      c₁.title = c₂.title ∧ c₁.details = c₂.details := by
  refine ⟨⟨certificateTitle, now₁, p⟩, ⟨certificateTitle, now₂, p⟩, ?_, ?_, rfl, rfl⟩ <;>
    simp [generateCertificate, h]

/-- Witness for C4: two clicks at distinct times on the same concrete
accepted input. -/
theorem C4_repeat_clicks_witness :
    ∃ c₁ c₂ : Cert,
      (generateCertificate (fun _ => some (Json.num 7)) "t1"
          ⟨"7", none, "text", false⟩).1.certificate = some c₁ ∧
      (generateCertificate (fun _ => some (Json.num 7)) "t2"
          (generateCertificate (fun _ => some (Json.num 7)) "t1"
            ⟨"7", none, "text", false⟩).1).1.certificate = some c₂ ∧
      c₁.title = c₂.title ∧ c₁.details = c₂.details :=
  C4_repeat_clicks (fun _ => some (Json.num 7)) "t1" "t2"
    ⟨"7", none, "text", false⟩ (Json.num 7) rfl

/-- C5: a file whose declared content type is not "application/json" is
rejected by `handleFileUpload` whether it arrives through the file
input or through drag-and-drop: the state is left unchanged (in
particular `jsonInput`, the RawLogText), and the invalid-file alert is
raised. -/
theorem C5_invalid_file_type (s : LocalState) (f : JsFile) (rest : List JsFile)
    (h : f.type ≠ "application/json") :
    handleFileUpload (some f) s = (s, ⟨["Please upload a valid JSON file."], 0⟩) ∧
    (handleDrop (f :: rest) s).1.jsonInput = s.jsonInput ∧
    (handleDrop (f :: rest) s).2 = ⟨["Please upload a valid JSON file."], 0⟩ ∧
    (handleFileInputChange (f :: rest) s).1.jsonInput = s.jsonInput ∧
    (handleFileInputChange (f :: rest) s).2 =
      ⟨["Please upload a valid JSON file."], 0⟩ := by
  simp [handleFileUpload, handleDrop, handleFileInputChange, h]

/-- Witness for C5 with a concrete text/plain file. -/
theorem C5_invalid_file_type_witness :
    ("text/plain" : String) ≠ "application/json" ∧
    handleFileUpload (some ⟨"text/plain", "hello"⟩) ⟨"old", none, "file", false⟩ =
      (⟨"old", none, "file", false⟩, ⟨["Please upload a valid JSON file."], 0⟩) ∧
    (handleDrop [⟨"text/plain", "hello"⟩] ⟨"old", none, "file", true⟩).1.jsonInput =
      "old" :=
  ⟨by decide,
   (C5_invalid_file_type ⟨"old", none, "file", false⟩ ⟨"text/plain", "hello"⟩ []
     (by decide)).1,
   (C5_invalid_file_type ⟨"old", none, "file", true⟩ ⟨"text/plain", "hello"⟩ []
     (by decide)).2.1⟩

/-- C6: from any prior state, a 200 response whose body is the object
with field "download_url" = "https://example/x.pdf" moves the workflow
to succeeded, logs no error, and the rendered download link's target is
exactly that value. -/
theorem C6_success_download_link (s : RemoteState) :
    workflowStatus (sendToApi (.response 200 (some (Json.obj
        [("download_url", Json.str "https://example/x.pdf")]))) s).1 =
      .succeeded ∧
    (sendToApi (.response 200 (some (Json.obj
        [("download_url", Json.str "https://example/x.pdf")]))) s).2.1 = none ∧
    (renderRemote (sendToApi (.response 200 (some (Json.obj
        [("download_url", Json.str "https://example/x.pdf")]))) s).1).downloadLink =
      some (Json.str "https://example/x.pdf") := by
  refine ⟨?_, ?_, ?_⟩ <;>
    simp [sendToApi, handleFetchOutcome, sendToApiStart, workflowStatus,
      renderRemote, respOk, Json.getField, Json.truthy, successMsg,
      generatingMsg, errorMsg, List.lookup]

/-- C7: a response with a status outside the 2xx range is logged as the
server error carrying that status; the workflow ends failed, the error
status message is visible, and no download affordance is rendered. -/
theorem C7_server_error (s : RemoteState) (st : Nat) (body : Option Json)
    (h : respOk st = false) :
    (sendToApi (.response st body) s).2.1 = some (.serverError st) ∧
    workflowStatus (sendToApi (.response st body) s).1 = .failed ∧
    (renderRemote (sendToApi (.response st body) s).1).statusMessage =
      some errorMsg ∧
    (renderRemote (sendToApi (.response st body) s).1).downloadLink = none := by
  refine ⟨?_, ?_, ?_, ?_⟩ <;>
    simp [sendToApi, handleFetchOutcome, sendToApiStart, h, workflowStatus,
      renderRemote, errorMsg, generatingMsg, successMsg, Json.truthy]

/-- Witness for C7 at status 500. -/
theorem C7_server_error_witness :
    respOk 500 = false ∧
    (sendToApi (.response 500 none) ⟨none, "", Json.str ""⟩).2.1 =
      some (.serverError 500) ∧
    workflowStatus (sendToApi (.response 500 none) ⟨none, "", Json.str ""⟩).1 =
      .failed ∧
    (renderRemote (sendToApi (.response 500 none)
        ⟨none, "", Json.str ""⟩).1).downloadLink = none :=
  ⟨by decide,
   (C7_server_error ⟨none, "", Json.str ""⟩ 500 none (by decide)).1,
   (C7_server_error ⟨none, "", Json.str ""⟩ 500 none (by decide)).2.1,
   (C7_server_error ⟨none, "", Json.str ""⟩ 500 none (by decide)).2.2.2⟩

/-- C8: a 2xx response whose parsed body has no "download_url" property
is logged as an invalid server response; the workflow ends failed and
no download affordance is rendered. -/
theorem C8_missing_field (s : RemoteState) (st : Nat) (data : Json)
    (hok : respOk st = true) (hmiss : data.getField "download_url" = none) :
    (sendToApi (.response st (some data)) s).2.1 = some .invalidServerResponse ∧
    workflowStatus (sendToApi (.response st (some data)) s).1 = .failed ∧
    (renderRemote (sendToApi (.response st (some data)) s).1).downloadLink =
      none := by
  refine ⟨?_, ?_, ?_⟩ <;>
    simp [sendToApi, handleFetchOutcome, sendToApiStart, hok, hmiss,
      workflowStatus, renderRemote, errorMsg, generatingMsg, successMsg,
      Json.truthy]

/-- Witness for C8 at status 200 with a body lacking the field. -/
theorem C8_missing_field_witness :
    respOk 200 = true ∧
    (Json.obj [("message", Json.str "ok")]).getField "download_url" = none ∧
    (sendToApi (.response 200 (some (Json.obj [("message", Json.str "ok")])))
        ⟨none, "", Json.str ""⟩).2.1 = some .invalidServerResponse ∧
    workflowStatus (sendToApi (.response 200
        (some (Json.obj [("message", Json.str "ok")])))
        ⟨none, "", Json.str ""⟩).1 = .failed :=
  ⟨by decide, rfl,
   (C8_missing_field ⟨none, "", Json.str ""⟩ 200
     (Json.obj [("message", Json.str "ok")]) (by decide) rfl).1,
   (C8_missing_field ⟨none, "", Json.str ""⟩ 200
     (Json.obj [("message", Json.str "ok")]) (by decide) rfl).2.1⟩

/-- C9 counterexample: the clearing of the stored download link happens
in `sendToApi`, which only runs once the asynchronous file read
completes — not "before doing anything else" of the attempt.  At click
time of a new attempt (read still pending, flag true), a previously
stored link survives and is still rendered, so it is visible during
the later attempt. -/
theorem C9_counterexample :
    (handleSubmitClick ⟨some ⟨"application/json", "log"⟩, successMsg,
        Json.str "https://old.example/old.pdf"⟩).2 = true ∧
    ((handleSubmitClick ⟨some ⟨"application/json", "log"⟩, successMsg,
        Json.str "https://old.example/old.pdf"⟩).1).downloadUrl =
      Json.str "https://old.example/old.pdf" ∧
    (renderRemote (handleSubmitClick ⟨some ⟨"application/json", "log"⟩,
        successMsg, Json.str "https://old.example/old.pdf"⟩).1).downloadLink =
      some (Json.str "https://old.example/old.pdf") := by
  refine ⟨rfl, rfl, ?_⟩
  simp [handleSubmitClick, renderRemote, Json.truthy]

/-- C9 (amended): every generation attempt clears the stored download
link and status message when it issues the request — the first actions
of `sendToApi`, after the file read completes — so the settled result
never depends on a previously stored link or status: two prior states
yield the same final download link under the same response. -/
theorem C9_clear_on_request (s t : RemoteState) (o : FetchOutcome) :
    (sendToApiStart s).downloadUrl = Json.str "" ∧
    (sendToApiStart s).status = generatingMsg ∧
    (sendToApi o s).1.downloadUrl = (sendToApi o t).1.downloadUrl := by
  refine ⟨rfl, rfl, ?_⟩
  cases o with
  | networkFailure msg => rfl
  | response st body =>
      simp only [sendToApi, handleFetchOutcome, sendToApiStart]
      by_cases hok : respOk st
      · cases body with
        | none => simp [hok]
        | some data =>
            cases hg : data.getField "download_url" with
            | none => simp [hok, hg]
            | some v => by_cases ht : v.truthy <;> simp [hok, hg, ht]
      · simp [hok]

/-- C10: in local mode a failed parse leaves the whole state — and so
the rendered certificate section — unchanged; moreover the certificate
state is only ever kept as-is or replaced wholesale by a complete fresh
envelope, never partially updated or cleared. -/
theorem C10_failed_generation_frame (parse : String → Option Json)
    (stringify : Json → String) (now : String) (s : LocalState) :
    (parse s.jsonInput = none →
      (generateCertificate parse now s).1 = s ∧
      renderCertificateSection stringify (generateCertificate parse now s).1 =
        renderCertificateSection stringify s) ∧
    ((generateCertificate parse now s).1.certificate = s.certificate ∨
      ∃ p, parse s.jsonInput = some p ∧
        (generateCertificate parse now s).1.certificate =
          some ⟨certificateTitle, now, p⟩) := by
  constructor
  · intro h
    simp [generateCertificate, h]
  · cases h : parse s.jsonInput with
    | none => exact Or.inl (by simp [generateCertificate, h])
    | some p => exact Or.inr ⟨p, rfl, by simp [generateCertificate, h]⟩

/-- Witness for C10: a failed parse over a state holding an earlier
certificate leaves it untouched and rendered. -/
theorem C10_failed_generation_frame_witness :
    (fun _ : String => (none : Option Json)) "bad" = none ∧
    (generateCertificate (fun _ => none) "t2"
        ⟨"bad", some ⟨certificateTitle, "t1", Json.num 7⟩, "text", false⟩).1 =
      ⟨"bad", some ⟨certificateTitle, "t1", Json.num 7⟩, "text", false⟩ :=
  ⟨rfl,
   ((C10_failed_generation_frame (fun _ => none) (fun _ => "dump") "t2"
     ⟨"bad", some ⟨certificateTitle, "t1", Json.num 7⟩, "text", false⟩).1 rfl).1⟩
